import Mathlib

/-!
Shallow embedding of the pyRecorder screen-recording engine
(`src/recorder.py`, `src/loopback_audio.py`, `src/region_selector.py`).

Pure data is modelled directly; environment-dependent effects (whether the
video writer opens, which audio device is found, whether the external mux
tool succeeds, which files exist on disk) are threaded in as explicit
parameters.  Machine integers of the Python source are modelled as `Int`.
-/

/-- String helper modelling Python `str.replace(pat, repl)` for a nonempty
pattern: left-to-right, non-overlapping replacement of every occurrence.
The fuel argument is the length of the scanned list, which always suffices
because each step consumes at least one character. -/
def pyReplaceFuel (pat repl : List Char) : Nat → List Char → List Char
  | _, [] => []
  | 0, l => l
  | Nat.succ n, c :: rest =>
    if List.isPrefixOf pat (c :: rest) then
      repl ++ pyReplaceFuel pat repl n (List.drop pat.length (c :: rest))
    else
      c :: pyReplaceFuel pat repl n rest

/-- Python `s.replace(pat, repl)` on strings (nonempty `pat`). -/
def pyReplace (s pat repl : String) : String :=
  String.mk (pyReplaceFuel pat.data repl.data s.data.length s.data)

/-- Index of the last occurrence of a dot in a character list, if any. -/
def lastDotIndex : List Char → Option Nat
  | [] => none
  | c :: rest =>
    match lastDotIndex rest with
    | some i => some (i + 1)
    | none => if c == '.' then some 0 else none

/-- Number of leading dots of a character list. -/
def leadingDots : List Char → Nat
  | [] => 0
  | c :: rest => if c == '.' then leadingDots rest + 1 else 0

/-- Python `os.path.splitext(name)[0]` for a name without path separators:
the extension starts at the last dot, but dots leading the whole name do
not begin an extension. -/
def pySplitextStem (s : String) : String :=
  let cs := s.data
  let lead := leadingDots cs
  match lastDotIndex (List.drop lead cs) with
  | some i => String.mk (List.take (lead + i) cs)
  | none => s

/-- Python `os.path.basename(p)` on Windows, for paths without a
drive-letter prefix: everything after the last slash or backslash. -/
def pyBasename (s : String) : String :=
  String.mk (s.data.foldl (fun acc c => if c == '/' || c == '\\' then [] else acc ++ [c]) [])

/-- Python `os.path.join(d, name)` on Windows for a relative `name`:
insert a separator unless `d` is empty or already ends in one. -/
def pyJoin (d name : String) : String :=
  match d.data.getLast? with
  | none => name
  | some c => if c == '/' || c == '\\' then d ++ name else d ++ "\\" ++ name

/-! ## Audio loopback component (`loopback_audio.py`, class WindowsAudioLoopback) -/

/-- Metadata of an audio device as returned by the device query:
`max_input_channels` and `default_samplerate`. -/
structure AudioDevice where
  maxInputChannels : Int
  defaultSamplerate : Int
deriving Repr, DecidableEq

/-- An opened sounddevice input stream: the channel count and sample rate
it was opened with. -/
structure AudioStreamHandle where
  channels : Int
  samplerate : Int
deriving Repr, DecidableEq

/-- The mutable fields of `WindowsAudioLoopback` set in `__init__`:
`recording`, `audio_data` (captured blocks, abstracted to ids),
`audio_file`, `sample_rate`, `channels`, `stream`. -/
structure AudioState where
  recording : Bool
  audioData : List Nat
  audioFile : Option String
  sampleRate : Int
  channels : Int
  stream : Option AudioStreamHandle
deriving Repr, DecidableEq

/-- `WindowsAudioLoopback.__init__`. -/
def audioInit : AudioState :=
  { recording := false, audioData := [], audioFile := none,
    sampleRate := 44100, channels := 2, stream := none }

namespace WindowsAudioLoopback

/-- `WindowsAudioLoopback.start_recording(output_file)`.  Environment
parameters: `findDevice` is the result of `find_output_device` (with the
queried device info), `createOk` is whether `sd.InputStream(...)` raises,
`startOk` is whether `stream.start()` raises, `tempDir` is
`tempfile.gettempdir()`.  Returns the Python return value and the state
after the call.  On an exception inside the `try`, the handler sets
`recording = False`; mutations made before the raise persist. -/
def start_recording (findDevice : Option AudioDevice) (createOk startOk : Bool)
    (tempDir : String) (output_file : String) (s : AudioState) : Bool × AudioState :=
  if s.recording then
    (false, s)
  else
    match findDevice with
    | none => (false, s)
    | some dev =>
      let max_channels := min dev.maxInputChannels 2
      if max_channels < 1 then
        (false, s)
      else
        let s := { s with channels := max_channels }
        let s := { s with sampleRate := dev.defaultSamplerate }
        let base_name := pySplitextStem (pyBasename output_file)
        let s := { s with audioFile := some (pyJoin tempDir (base_name ++ "_audio.wav")) }
        let s := { s with audioData := [], recording := true }
        if createOk then
          let s := { s with stream := some { channels := max_channels,
                                             samplerate := dev.defaultSamplerate } }
          if startOk then
            (true, s)
          else
            (false, { s with recording := false })
        else
          (false, { s with recording := false })

/-- `WindowsAudioLoopback._audio_callback`: appends the block while
recording. -/
def audio_callback (blk : Nat) (s : AudioState) : AudioState :=
  if s.recording then { s with audioData := s.audioData ++ [blk] } else s

/-- `WindowsAudioLoopback.stop_recording()`.  `saveOk` is whether, after
`_save_audio_data`, the audio file exists on disk and has nonzero size. -/
def stop_recording (saveOk : Bool) (s : AudioState) : Option String × AudioState :=
  if !s.recording then
    (none, s)
  else
    let s := { s with recording := false }
    let s := match s.stream with
      | some _ => { s with stream := none }
      | none => s
    match s.audioData, s.audioFile with
    | _ :: _, some af =>
      if af != "" then
        if saveOk then (some af, s) else (none, s)
      else
        (none, s)
    | _, _ => (none, s)

/-- `WindowsAudioLoopback.combine_with_video`: runs the external tool and
succeeds iff the return code is 0 and the output file exists afterwards.
`retcode = none` models an exception (e.g. timeout). -/
def combine_with_video (retcode : Option Int) (outExists : Bool) : Bool :=
  match retcode with
  | some rc => rc == 0 && outExists
  | none => false

end WindowsAudioLoopback

/-! ## Recording session controller (`recorder.py`, class ScreenRecorder) -/

/-- A recording region `{left, top, width, height}` in absolute desktop
coordinates (`record_region` dict). -/
structure Region where
  left : Int
  top : Int
  width : Int
  height : Int
deriving Repr, DecidableEq

/-- A `cv2.VideoWriter` handle: the constructor arguments and whether
`isOpened()` holds. -/
structure VideoWriterHandle where
  filename : String
  fps : Int
  width : Int
  height : Int
  opened : Bool
deriving Repr, DecidableEq

/-- The mutable fields of `ScreenRecorder` set in `__init__` that the
session protocol touches: `recording`, `video_writer`, `output_filename`,
`record_region`, `current_video_size`, `fps`. -/
structure RecorderState where
  recording : Bool
  videoWriter : Option VideoWriterHandle
  outputFilename : Option String
  recordRegion : Option Region
  currentVideoSize : Option (Int × Int)
  fps : Int
deriving Repr, DecidableEq

/-- `ScreenRecorder.__init__` (session-protocol fields). -/
def recorderInit : RecorderState :=
  { recording := false, videoWriter := none, outputFilename := none,
    recordRegion := none, currentVideoSize := none, fps := 30 }

/-- The controller together with its audio component. -/
structure SystemState where
  recorder : RecorderState
  audio : AudioState
deriving Repr, DecidableEq

/-- Fresh controller plus fresh audio component. -/
def systemInit : SystemState := { recorder := recorderInit, audio := audioInit }

/-- Environment of `ScreenRecorder.start_recording`: whether the freshly
constructed `cv2.VideoWriter` reports `isOpened()`, and the audio
component's environment (device lookup result, stream create/start
success, temp directory). -/
structure StartEnv where
  writerOpens : Bool
  audioFind : Option AudioDevice
  audioCreateOk : Bool
  audioStartOk : Bool
  tempDir : String

/-- Environment of `ScreenRecorder.stop_recording`: whether the saved
audio file exists nonempty, which paths `os.path.exists` reports at
combine/cleanup time, and the external mux tool's outcome. -/
structure StopEnv where
  audioSaveOk : Bool
  fileExists : String → Bool
  muxRetcode : Option Int
  muxOutExists : Bool

/-- Result of `ScreenRecorder.stop_recording`: the returned path, the
state after the call, the files removed by cleanup, and the
`(video, audio, output)` triple passed to `combine_with_video` when a
combine was attempted. -/
structure StopOut where
  ret : Option String
  st : SystemState
  deleted : List String
  muxCall : Option (String × String × String)
deriving Repr, DecidableEq

namespace ScreenRecorder

/-- `ScreenRecorder.start_recording(x, y, width, height, filename)`.
Sets `output_filename`, constructs the video writer, and if it did not
open returns `False`; otherwise stores the region, fixes
`current_video_size`, sets `recording`, and best-effort starts the audio
component (its boolean result is only printed). -/
def start_recording (e : StartEnv) (x y width height : Int) (filename : String)
    (s : SystemState) : Bool × SystemState :=
  let rec1 := { s.recorder with outputFilename := some filename }
  let writer : VideoWriterHandle :=
    { filename := filename, fps := rec1.fps, width := width, height := height,
      opened := e.writerOpens }
  let rec2 := { rec1 with videoWriter := some writer }
  if !writer.opened then
    (false, { s with recorder := rec2 })
  else
    let rec3 := { rec2 with recordRegion := some { left := x, top := y,
                                                   width := width, height := height } }
    let rec4 := { rec3 with currentVideoSize := some (width, height) }
    let rec5 := { rec4 with recording := true }
    let audio1 := (WindowsAudioLoopback.start_recording e.audioFind e.audioCreateOk
        e.audioStartOk e.tempDir filename s.audio).2
    (true, { recorder := rec5, audio := audio1 })

/-- `ScreenRecorder.stop_recording()`.  Clears `recording`, stops the
audio component, releases the video writer, and if a nonempty audio file
path came back, exists on disk, and `output_filename` is truthy, attempts
the combine into `output_filename.replace(".mp4", "_final.mp4")`; on
success removes the intermediate files that exist and returns the
combined path, otherwise returns `output_filename`. -/
def stop_recording (env : StopEnv) (s : SystemState) : StopOut :=
  let rec1 := { s.recorder with recording := false }
  let audioRes := WindowsAudioLoopback.stop_recording env.audioSaveOk s.audio
  let rec2 := match rec1.videoWriter with
    | some _ => { rec1 with videoWriter := none }
    | none => rec1
  match audioRes.1, rec2.outputFilename with
  | some audio_file, some out =>
    if audio_file != "" && env.fileExists audio_file && out != "" then
      let final_filename := pyReplace out ".mp4" "_final.mp4"
      let combine_success :=
        WindowsAudioLoopback.combine_with_video env.muxRetcode env.muxOutExists
      if combine_success then
        { ret := some final_filename,
          st := { recorder := rec2, audio := audioRes.2 },
          deleted := (if env.fileExists out then [out] else []) ++
                     (if env.fileExists audio_file then [audio_file] else []),
          muxCall := some (out, audio_file, final_filename) }
      else
        { ret := some out,
          st := { recorder := rec2, audio := audioRes.2 },
          deleted := [],
          muxCall := some (out, audio_file, final_filename) }
    else
      { ret := rec2.outputFilename,
        st := { recorder := rec2, audio := audioRes.2 },
        deleted := [], muxCall := none }
  | _, _ =>
    { ret := rec2.outputFilename,
      st := { recorder := rec2, audio := audioRes.2 },
      deleted := [], muxCall := none }

/-- `ScreenRecorder.update_recording_region(x, y, width, height)`: fails
when not recording, otherwise replaces `record_region` under the lock. -/
def update_recording_region (x y width height : Int) (s : SystemState) :
    Bool × SystemState :=
  if !s.recorder.recording then
    (false, s)
  else
    (true, { s with recorder := { s.recorder with
      recordRegion := some { left := x, top := y, width := width, height := height } } })

/-- `ScreenRecorder.get_current_region()`: thread-safe snapshot. -/
def get_current_region (s : SystemState) : Option Region :=
  s.recorder.recordRegion

end ScreenRecorder

/-- Applying a list of `update_recording_region` calls in order. -/
def applyUpdates : List (Int × Int × Int × Int) → SystemState → SystemState
  | [], s => s
  | (x, y, w, h) :: rest, s =>
    applyUpdates rest (ScreenRecorder.update_recording_region x y w h s).2

/-! ## Capture loop iteration (`recorder.py`, `_record_video`) -/

/-- A captured or encoded frame, abstracted to its pixel dimensions. -/
structure Frame where
  width : Int
  height : Int
deriving Repr, DecidableEq

/-- `sct.grab(region)`: the screenshot has the region's dimensions. -/
def grab (r : Region) : Frame := { width := r.width, height := r.height }

/-- `cv2.cvtColor(..., COLOR_BGRA2BGR)`: dimensions unchanged. -/
def bgraToBgr (fr : Frame) : Frame := fr

/-- `cv2.resize(frame, (target_w, target_h))`. -/
def cvResize (_f : Frame) (sz : Int × Int) : Frame := { width := sz.1, height := sz.2 }

namespace ScreenRecorder

/-- One iteration of the `_record_video` loop body, from the region
snapshot to the frame handed to `video_writer.write`.  Returns `none`
when the iteration appends nothing (missing region/size, or no writer);
otherwise the written frame and whether a resize was applied. -/
def record_video_iteration (r : RecorderState) : Option (Frame × Bool) :=
  match r.recordRegion, r.currentVideoSize with
  | some current_region, some target_size =>
    let shot := grab current_region
    let frame := bgraToBgr shot
    let frame2 :=
      if (frame.width, frame.height) ≠ target_size then cvResize frame target_size else frame
    match r.videoWriter with
    | some _ => some (frame2, (frame.width, frame.height) ≠ target_size)
    | none => none
  | _, _ => none

end ScreenRecorder

/-- Checks that a capture-loop iteration output, if any, has exactly the
given frame dimensions. -/
def frameDimsOk (w h : Int) (o : Option (Frame × Bool)) : Bool :=
  match o with
  | none => true
  | some p => p.1.width == w && p.1.height == h

/-! ## Freehand region selector (`region_selector.py`, class RegionSelector) -/

/-- The drag-tracking fields of `RegionSelector` relevant to selection:
`start_x`/`start_y` (set together by `on_click`) and `selected_region`
as an `(x, y, width, height)` tuple. -/
structure SelectorState where
  start : Option (Int × Int)
  selectedRegion : Option (Int × Int × Int × Int)
deriving Repr, DecidableEq

namespace RegionSelector

/-- `RegionSelector.on_release(event)`.  `offset` is the virtual
desktop's origin `(monitors[0].left, monitors[0].top)`, `event` the
release point in overlay coordinates.  Selections under 50x50 only draw
an error message and return; otherwise the absolute region is stored. -/
def on_release (offset : Int × Int) (event : Int × Int) (s : SelectorState) :
    SelectorState :=
  match s.start with
  | none => s
  | some (start_x, start_y) =>
    let x1 := start_x
    let y1 := start_y
    let x2 := event.1
    let y2 := event.2
    let x := min x1 x2
    let y := min y1 y2
    let width := |x2 - x1|
    let height := |y2 - y1|
    if width < 50 ∨ height < 50 then
      s
    else
      { s with selectedRegion := some (x + offset.1, y + offset.2, width, height) }

end RegionSelector

/-! ## Lock scope of the capture loop (`recorder.py`, `_record_video`) -/

/-- The operations of one `_record_video` loop iteration, in source
order, along the path that reaches the capture.  The two `with lock:`
blocks are explicit acquire/release pairs. -/
inductive CaptureStep where
  | acquireRegionLock
  | copyRegionOut
  | releaseRegionLock
  | acquireWriterLock
  | readTargetSize
  | releaseWriterLock
  | grabScreen
  | convertColor
  | resizeToTarget
  | writeFrame
  | paceSleep
deriving Repr, DecidableEq

/-- The body of the `while self.recording` loop in `_record_video`, as
written in the source: region snapshot under `region_lock`, target-size
read under `video_writer_lock`, then capture, convert, resize, write and
frame-rate sleep, all outside both `with` blocks.  (The `continue` path
taken when region or size is unset leaves the loop body before
`grabScreen`.) -/
def captureLoopBody : List CaptureStep :=
  [CaptureStep.acquireRegionLock, CaptureStep.copyRegionOut, CaptureStep.releaseRegionLock,
   CaptureStep.acquireWriterLock, CaptureStep.readTargetSize, CaptureStep.releaseWriterLock,
   CaptureStep.grabScreen, CaptureStep.convertColor, CaptureStep.resizeToTarget,
   CaptureStep.writeFrame, CaptureStep.paceSleep]

/-- Effect of one step on the pair (region lock held, writer lock held). -/
def applyLockStep (l : Bool × Bool) (st : CaptureStep) : Bool × Bool :=
  match st with
  | CaptureStep.acquireRegionLock => (true, l.2)
  | CaptureStep.releaseRegionLock => (false, l.2)
  | CaptureStep.acquireWriterLock => (l.1, true)
  | CaptureStep.releaseWriterLock => (l.1, false)
  | _ => l

/-- Annotates every step of a straight-line step list with the lock
state in force while that step executes. -/
def annotateLocks (l : Bool × Bool) : List CaptureStep → List ((Bool × Bool) × CaptureStep)
  | [] => []
  | st :: rest => (l, st) :: annotateLocks (applyLockStep l st) rest

/-! ## Fixtures used by witnesses and counterexamples -/

/-- A loopback device with 6 input channels at 48 kHz. -/
def dev0 : AudioDevice := { maxInputChannels := 6, defaultSamplerate := 48000 }

/-- Start environment where the video writer opens and audio fully starts. -/
def envStartOk : StartEnv :=
  { writerOpens := true, audioFind := some dev0, audioCreateOk := true,
    audioStartOk := true, tempDir := "C:/Temp" }

/-- Start environment where the video writer fails to open. -/
def envStartFail : StartEnv :=
  { writerOpens := false, audioFind := none, audioCreateOk := true,
    audioStartOk := true, tempDir := "C:/Temp" }

/-- Stop environment where the audio file saved, every file exists, and the
external mux tool succeeds. -/
def envStopMux : StopEnv :=
  { audioSaveOk := true, fileExists := fun _ => true, muxRetcode := some 0,
    muxOutExists := true }

/-- A session started on a 640x480 region into `out.mp4`, with one audio
block captured. -/
def sessionMp4 : SystemState :=
  let s1 := (ScreenRecorder.start_recording envStartOk 0 0 640 480 "out.mp4" systemInit).2
  { s1 with audio := WindowsAudioLoopback.audio_callback 0 s1.audio }

/-- The result of stopping `sessionMp4` under `envStopMux`. -/
def sessionMp4Stopped : StopOut := ScreenRecorder.stop_recording envStopMux sessionMp4

/-- A session started into `clip.mp4`, with one audio block captured. -/
def sessionClip : SystemState :=
  let s1 := (ScreenRecorder.start_recording envStartOk 0 0 640 480 "clip.mp4" systemInit).2
  { s1 with audio := WindowsAudioLoopback.audio_callback 0 s1.audio }

/-- A session started into `video.avi`, with one audio block captured. -/
def sessionAvi : SystemState :=
  let s1 := (ScreenRecorder.start_recording envStartOk 0 0 640 480 "video.avi" systemInit).2
  { s1 with audio := WindowsAudioLoopback.audio_callback 0 s1.audio }

/-- Checks that the audio state's open stream and stored configuration
match the located device: channel count `min(max_input_channels, 2)` and
the device's preferred sample rate. -/
def streamConfigOk (findDevice : Option AudioDevice) (s : AudioState) : Bool :=
  match findDevice, s.stream with
  | some dev, some st =>
    st.channels == min dev.maxInputChannels 2 &&
    st.samplerate == dev.defaultSamplerate &&
    s.channels == min dev.maxInputChannels 2 &&
    s.sampleRate == dev.defaultSamplerate
  | _, _ => false

/-! ## Claims -/

/-- Claim C4: `update_recording_region` called while the session is Idle
returns `False` and leaves every stored field of the controller exactly
as it was. -/
theorem c4_update_region_idle_noop (x y width height : Int) (s : SystemState)
    (hidle : s.recorder.recording = false) :
    ScreenRecorder.update_recording_region x y width height s = (false, s) := by
  simp [ScreenRecorder.update_recording_region, hidle]

/-- Witness for C4 at a concrete idle state. -/
theorem c4_update_region_idle_noop_witness :
    ScreenRecorder.update_recording_region 10 20 300 200 systemInit =
      (false, systemInit) :=
  c4_update_region_idle_noop 10 20 300 200 systemInit rfl

/-- Claim C9: the audio component's `start_recording` called while already
streaming returns `False` with the state (buffered data, file path,
stream, sample rate, channels, recording flag) completely unchanged. -/
theorem c9_audio_start_while_streaming (findDevice : Option AudioDevice)
    (createOk startOk : Bool) (tempDir output_file : String) (s : AudioState)
    (hrec : s.recording = true) :
    WindowsAudioLoopback.start_recording findDevice createOk startOk tempDir
      output_file s = (false, s) := by
  simp [WindowsAudioLoopback.start_recording, hrec]

/-- Witness for C9 at a concrete streaming state. -/
theorem c9_audio_start_while_streaming_witness :
    WindowsAudioLoopback.start_recording (some dev0) true true "C:/Temp" "b.mp4"
      { audioInit with recording := true } =
      (false, { audioInit with recording := true }) :=
  c9_audio_start_while_streaming (some dev0) true true "C:/Temp" "b.mp4"
    { audioInit with recording := true } rfl

/-- Claim C10: while recording, `update_recording_region` returns `True`
and stores exactly the given integers as the region, with no validation
of positivity. -/
theorem c10_update_region_recording_stores_exactly (x y width height : Int)
    (s : SystemState) (hrec : s.recorder.recording = true) :
    ScreenRecorder.update_recording_region x y width height s =
      (true, { s with
               recorder := { s.recorder with
                             recordRegion := some { left := x, top := y,
                                                    width := width, height := height } } }) := by
  simp [ScreenRecorder.update_recording_region, hrec]

/-- Witness for C10: a zero-width, negative-height region is accepted and
stored verbatim while recording. -/
theorem c10_update_region_recording_stores_exactly_witness :
    ScreenRecorder.update_recording_region 5 6 0 (-7)
      { systemInit with recorder := { recorderInit with recording := true } } =
      (true, { systemInit with
               recorder := { recorderInit with
                             recording := true,
                             recordRegion := some { left := 5, top := 6,
                                                    width := 0, height := -7 } } }) :=
  c10_update_region_recording_stores_exactly 5 6 0 (-7)
    { systemInit with recorder := { recorderInit with recording := true } } rfl

/-- Counterexample to C2 as stated: when the video writer fails to open,
`start_recording` returns `False` but the stored output filename and
video-writer handle have changed. -/
theorem c2_counterexample :
    (ScreenRecorder.start_recording envStartFail 0 0 100 100 "new.mp4"
      { systemInit with recorder := { recorderInit with outputFilename := some "old.mp4" } }).1
      = false ∧
    (ScreenRecorder.start_recording envStartFail 0 0 100 100 "new.mp4"
      { systemInit with recorder := { recorderInit with outputFilename := some "old.mp4" } }).2.recorder.outputFilename
      ≠ some "old.mp4" ∧
    (ScreenRecorder.start_recording envStartFail 0 0 100 100 "new.mp4"
      { systemInit with recorder := { recorderInit with outputFilename := some "old.mp4" } }).2.recorder.videoWriter
      ≠ none := by
  decide

/-- Claim C2 (amended): when the video writer fails to open,
`start_recording` returns `False`; the recording flag, region and target
frame size are unchanged, but the output filename has been set to the new
filename and the video-writer field holds the new unopened writer. -/
theorem c2_start_open_failure (e : StartEnv) (x y width height : Int)
    (filename : String) (s : SystemState) (hopen : e.writerOpens = false) :
    ScreenRecorder.start_recording e x y width height filename s =
      (false, { s with
                recorder := { s.recorder with
                              outputFilename := some filename,
                              videoWriter := some { filename := filename,
                                                    fps := s.recorder.fps,
                                                    width := width, height := height,
                                                    opened := false } } }) := by
  simp [ScreenRecorder.start_recording, hopen]

/-- Witness for the amended C2 at a concrete state. -/
theorem c2_start_open_failure_witness :
    ScreenRecorder.start_recording envStartFail 1 2 100 50 "w.mp4" systemInit =
      (false, { systemInit with
                recorder := { systemInit.recorder with
                              outputFilename := some "w.mp4",
                              videoWriter := some { filename := "w.mp4",
                                                    fps := systemInit.recorder.fps,
                                                    width := 100, height := 50,
                                                    opened := false } } }) :=
  c2_start_open_failure envStartFail 1 2 100 50 "w.mp4" systemInit rfl

/-- Claim C8: in the capture-loop body of `_record_video`, the region
snapshot happens with the region lock held, the screen grab and the frame
write happen with neither lock held, and the region lock is released
before the grab. -/
theorem c8_capture_loop_lock_scope :
    ((annotateLocks (false, false) captureLoopBody).all fun p =>
      !(p.2 == CaptureStep.grabScreen || p.2 == CaptureStep.writeFrame) ||
        (p.1 == (false, false))) = true ∧
    ((annotateLocks (false, false) captureLoopBody).all fun p =>
      !(p.2 == CaptureStep.copyRegionOut) || (p.1.1 == true)) = true ∧
    List.indexOf CaptureStep.releaseRegionLock captureLoopBody <
      List.indexOf CaptureStep.grabScreen captureLoopBody := by
  decide

/-- Claim C6: called from Idle, the audio component's `start_recording`
returns `False` with the component back in Idle on every failure (no
device, no input channels, stream create or start failure); on success
the stream is open at the device's preferred sample rate and
`min(max_input_channels, 2)` channels. -/
theorem c6_audio_start_failure_idle (findDevice : Option AudioDevice)
    (createOk startOk : Bool) (tempDir output_file : String) (s : AudioState)
    (hidle : s.recording = false) :
    ((WindowsAudioLoopback.start_recording findDevice createOk startOk tempDir
        output_file s).1 = false →
      (WindowsAudioLoopback.start_recording findDevice createOk startOk tempDir
        output_file s).2.recording = false) ∧
    ((WindowsAudioLoopback.start_recording findDevice createOk startOk tempDir
        output_file s).1 = true →
      streamConfigOk findDevice
        (WindowsAudioLoopback.start_recording findDevice createOk startOk tempDir
          output_file s).2 = true) := by
  cases findDevice with
  | none => simp [WindowsAudioLoopback.start_recording, hidle]
  | some dev =>
    by_cases hch : min dev.maxInputChannels 2 < 1
    · simp [WindowsAudioLoopback.start_recording, hidle, hch]
    · cases createOk with
      | false => simp [WindowsAudioLoopback.start_recording, hidle, hch]
      | true =>
        cases startOk with
        | false => simp [WindowsAudioLoopback.start_recording, hidle, hch]
        | true => simp [WindowsAudioLoopback.start_recording, streamConfigOk, hidle, hch]

/-- Witness for C6: a successful start from Idle on a 6-channel 48 kHz
device opens a 2-channel 48 kHz stream. -/
theorem c6_audio_start_failure_idle_witness :
    ((WindowsAudioLoopback.start_recording (some dev0) true true "C:/Temp"
        "o.mp4" audioInit).1 = false →
      (WindowsAudioLoopback.start_recording (some dev0) true true "C:/Temp"
        "o.mp4" audioInit).2.recording = false) ∧
    ((WindowsAudioLoopback.start_recording (some dev0) true true "C:/Temp"
        "o.mp4" audioInit).1 = true →
      streamConfigOk (some dev0)
        (WindowsAudioLoopback.start_recording (some dev0) true true "C:/Temp"
          "o.mp4" audioInit).2 = true) :=
  c6_audio_start_failure_idle (some dev0) true true "C:/Temp" "o.mp4" audioInit rfl

/-- Claim C7: on mouse release with a drag in progress, a rectangle under
50 pixels in either dimension leaves the selector state (including any
previously selected region) unchanged; otherwise the selected region
becomes `(min(x1,x2)+offset_x, min(y1,y2)+offset_y, |x2-x1|, |y2-y1|)`
with the virtual desktop origin added. -/
theorem c7_on_release_selection (offset event : Int × Int) (s : SelectorState)
    (sx sy : Int) (hstart : s.start = some (sx, sy)) :
    ((|event.1 - sx| < 50 ∨ |event.2 - sy| < 50) →
      RegionSelector.on_release offset event s = s) ∧
    (¬ (|event.1 - sx| < 50 ∨ |event.2 - sy| < 50) →
      (RegionSelector.on_release offset event s).selectedRegion =
        some (min sx event.1 + offset.1, min sy event.2 + offset.2,
          |event.1 - sx|, |event.2 - sy|) ∧
      (RegionSelector.on_release offset event s).start = s.start) := by
  constructor
  · intro hsmall
    simp [RegionSelector.on_release, hstart, hsmall]
  · intro hbig
    simp [RegionSelector.on_release, hstart, hbig]

/-- Witness for C7: releasing at (100, 90) after clicking at (10, 20) on a
desktop with origin (-1920, 0) selects (-1910, 20, 90, 70). -/
theorem c7_on_release_selection_witness :
    ((|(100 : Int) - 10| < 50 ∨ |(90 : Int) - 20| < 50) →
      RegionSelector.on_release (-1920, 0) (100, 90)
        { start := some (10, 20), selectedRegion := none } =
        { start := some (10, 20), selectedRegion := none }) ∧
    (¬ (|(100 : Int) - 10| < 50 ∨ |(90 : Int) - 20| < 50) →
      (RegionSelector.on_release (-1920, 0) (100, 90)
        { start := some (10, 20), selectedRegion := none }).selectedRegion =
        some (min 10 100 + -1920, min 20 90 + 0, |(100 : Int) - 10|, |(90 : Int) - 20|) ∧
      (RegionSelector.on_release (-1920, 0) (100, 90)
        { start := some (10, 20), selectedRegion := none }).start =
        SelectorState.start { start := some (10, 20), selectedRegion := none }) :=
  c7_on_release_selection (-1920, 0) (100, 90)
    { start := some (10, 20), selectedRegion := none } 10 20 rfl

/-- Counterexample to C5 as stated: after a session whose stop combined
audio (returning `out_final.mp4`), a further stop while Idle returns the
stored video-only path `out.mp4`, not the path the most recent completed
stop returned. -/
theorem c5_counterexample :
    sessionMp4Stopped.ret = some "out_final.mp4" ∧
    sessionMp4Stopped.st.recorder.recording = false ∧
    (ScreenRecorder.stop_recording envStopMux sessionMp4Stopped.st).ret = some "out.mp4" ∧
    (ScreenRecorder.stop_recording envStopMux sessionMp4Stopped.st).ret ≠
      sessionMp4Stopped.ret := by
  decide

/-- Claim C5 (amended): calling stop while Idle (not recording, video
writer released, audio idle) returns the stored output filename — the
video-only path from the most recent start, which can differ from what
the previous stop returned when it combined audio — and has no side
effects: no combine attempt, no deletions, state unchanged. -/
theorem c5_stop_while_idle (env : StopEnv) (s : SystemState)
    (h1 : s.recorder.recording = false) (h2 : s.recorder.videoWriter = none)
    (h3 : s.audio.recording = false) :
    ScreenRecorder.stop_recording env s =
      { ret := s.recorder.outputFilename, st := s, deleted := [], muxCall := none } := by
  obtain ⟨⟨rrec, vw, ofn, rreg, cvs, fps⟩, ⟨arec, adata, afile, asr, ach, astream⟩⟩ := s
  simp only at h1 h2 h3
  subst h1
  subst h2
  subst h3
  cases ofn <;>
    simp [ScreenRecorder.stop_recording, WindowsAudioLoopback.stop_recording]

/-- Witness for the amended C5 at the freshly initialized (Idle) state. -/
theorem c5_stop_while_idle_witness :
    ScreenRecorder.stop_recording envStopMux systemInit =
      { ret := none, st := systemInit, deleted := [], muxCall := none } :=
  c5_stop_while_idle envStopMux systemInit rfl rfl rfl

/-- Counterexample to C3 as stated: for output filename `video.avi`, the
combine destination computed by `output_filename.replace(".mp4",
"_final.mp4")` is `video.avi` itself — the very video-only path, not a
new path of the form `<name>_final.<ext>` (which would be
`video_final.avi`). -/
theorem c3_counterexample :
    (ScreenRecorder.stop_recording envStopMux sessionAvi).muxCall =
      some ("video.avi", "C:/Temp\\video_audio.wav", "video.avi") ∧
    sessionAvi.recorder.outputFilename = some "video.avi" ∧
    ¬ (ScreenRecorder.stop_recording envStopMux sessionAvi).muxCall =
      some ("video.avi", "C:/Temp\\video_audio.wav", "video_final.avi") := by
  decide

/-- Claim C3 (amended): on stop with an existing nonempty audio file and a
truthy output filename, the controller attempts the combine into the
output filename with every occurrence of `.mp4` replaced by `_final.mp4`
(equal to the `<name>_final.mp4` convention whenever the filename
contains `.mp4` exactly once, as its extension); on combine success it
deletes the intermediate video-only and audio-only files that exist and
returns the combined path; on failure it returns the video-only path and
deletes nothing. -/
theorem c3_stop_combine_semantics (env : StopEnv) (s : SystemState)
    (audio_file out : String)
    (ha : (WindowsAudioLoopback.stop_recording env.audioSaveOk s.audio).1 = some audio_file)
    (hane : audio_file ≠ "")
    (hax : env.fileExists audio_file = true)
    (ho : s.recorder.outputFilename = some out)
    (hone : out ≠ "") :
    (ScreenRecorder.stop_recording env s).muxCall =
      some (out, audio_file, pyReplace out ".mp4" "_final.mp4") ∧
    (WindowsAudioLoopback.combine_with_video env.muxRetcode env.muxOutExists = true →
      (ScreenRecorder.stop_recording env s).ret =
        some (pyReplace out ".mp4" "_final.mp4") ∧
      (ScreenRecorder.stop_recording env s).deleted =
        (if env.fileExists out then [out] else []) ++
        (if env.fileExists audio_file then [audio_file] else [])) ∧
    (WindowsAudioLoopback.combine_with_video env.muxRetcode env.muxOutExists = false →
      (ScreenRecorder.stop_recording env s).ret = some out ∧
      (ScreenRecorder.stop_recording env s).deleted = []) := by
  obtain ⟨⟨rrec, vw, ofn, rreg, cvs, fps⟩, audio⟩ := s
  simp only at ha ho
  subst ho
  have hb1 : (audio_file != "") = true := by simp [hane]
  have hb2 : (out != "") = true := by simp [hone]
  cases hc : WindowsAudioLoopback.combine_with_video env.muxRetcode env.muxOutExists <;>
    cases vw <;>
      simp [ScreenRecorder.stop_recording, ha, hb1, hb2, hax, hc]

/-- Witness for the amended C3: stopping the `clip.mp4` session under an
environment where the mux succeeds. -/
theorem c3_stop_combine_semantics_witness :
    (ScreenRecorder.stop_recording envStopMux sessionClip).muxCall =
      some ("clip.mp4", "C:/Temp\\clip_audio.wav", pyReplace "clip.mp4" ".mp4" "_final.mp4") ∧
    (WindowsAudioLoopback.combine_with_video envStopMux.muxRetcode envStopMux.muxOutExists = true →
      (ScreenRecorder.stop_recording envStopMux sessionClip).ret =
        some (pyReplace "clip.mp4" ".mp4" "_final.mp4") ∧
      (ScreenRecorder.stop_recording envStopMux sessionClip).deleted =
        (if envStopMux.fileExists "clip.mp4" then ["clip.mp4"] else []) ++
        (if envStopMux.fileExists "C:/Temp\\clip_audio.wav" then ["C:/Temp\\clip_audio.wav"] else [])) ∧
    (WindowsAudioLoopback.combine_with_video envStopMux.muxRetcode envStopMux.muxOutExists = false →
      (ScreenRecorder.stop_recording envStopMux sessionClip).ret = some "clip.mp4" ∧
      (ScreenRecorder.stop_recording envStopMux sessionClip).deleted = []) :=
  c3_stop_combine_semantics envStopMux sessionClip "C:/Temp\\clip_audio.wav" "clip.mp4"
    (by decide) (by decide) rfl (by decide) (by decide)

/-- `update_recording_region` never changes `current_video_size`. -/
theorem update_preserves_video_size (x y w h : Int) (s : SystemState) :
    (ScreenRecorder.update_recording_region x y w h s).2.recorder.currentVideoSize =
      s.recorder.currentVideoSize := by
  unfold ScreenRecorder.update_recording_region
  split <;> rfl

/-- Any sequence of region updates leaves `current_video_size` unchanged. -/
theorem applyUpdates_preserves_video_size (us : List (Int × Int × Int × Int))
    (s : SystemState) :
    (applyUpdates us s).recorder.currentVideoSize = s.recorder.currentVideoSize := by
  induction us generalizing s with
  | nil => rfl
  | cons u rest ih =>
    obtain ⟨x, y, w, h⟩ := u
    rw [applyUpdates, ih, update_preserves_video_size]

/-- Whatever the current region, a capture-loop iteration only ever
appends a frame of exactly the stored target dimensions. -/
theorem record_video_iteration_dims (r : RecorderState) (w h : Int)
    (hcvs : r.currentVideoSize = some (w, h)) :
    frameDimsOk w h (ScreenRecorder.record_video_iteration r) = true := by
  unfold ScreenRecorder.record_video_iteration
  rw [hcvs]
  cases hreg : r.recordRegion with
  | none => rfl
  | some reg =>
    cases hw : r.videoWriter with
    | none => simp [frameDimsOk]
    | some wr =>
      simp only [frameDimsOk]
      split
      · simp [cvResize]
      · rename_i hdim
        simp only [grab, bgraToBgr, ne_eq, not_not, Prod.mk.injEq] at hdim
        simp [grab, bgraToBgr, hdim.1, hdim.2]

/-- Claim C1: a session started on a `(w, h)` region keeps Target Frame
Size `(w, h)` through any sequence of region updates, and every frame the
capture loop appends has exactly dimensions `(w, h)` (frames captured at
other dimensions are resized before the append). -/
theorem c1_target_frame_size_fixed (e : StartEnv) (x y w h : Int) (filename : String)
    (s0 : SystemState) (us : List (Int × Int × Int × Int))
    (hstart : (ScreenRecorder.start_recording e x y w h filename s0).1 = true) :
    (applyUpdates us
      (ScreenRecorder.start_recording e x y w h filename s0).2).recorder.currentVideoSize
      = some (w, h) ∧
    frameDimsOk w h (ScreenRecorder.record_video_iteration
      (applyUpdates us
        (ScreenRecorder.start_recording e x y w h filename s0).2).recorder) = true := by
  have hcvs : (ScreenRecorder.start_recording e x y w h
      filename s0).2.recorder.currentVideoSize = some (w, h) := by
    cases hop : e.writerOpens with
    | false => simp [ScreenRecorder.start_recording, hop] at hstart
    | true => simp [ScreenRecorder.start_recording, hop]
  have hall : (applyUpdates us
      (ScreenRecorder.start_recording e x y w h
        filename s0).2).recorder.currentVideoSize = some (w, h) := by
    rw [applyUpdates_preserves_video_size, hcvs]
  exact ⟨hall, record_video_iteration_dims _ w h hall⟩

/-- Witness for C1: a 640x480 session, after an update to a 300x200
region, still appends 640x480 frames. -/
theorem c1_target_frame_size_fixed_witness :
    (applyUpdates [(1, 2, 300, 200)]
      (ScreenRecorder.start_recording envStartOk 0 0 640 480 "out.mp4"
        systemInit).2).recorder.currentVideoSize = some (640, 480) ∧
    frameDimsOk 640 480 (ScreenRecorder.record_video_iteration
      (applyUpdates [(1, 2, 300, 200)]
        (ScreenRecorder.start_recording envStartOk 0 0 640 480 "out.mp4"
          systemInit).2).recorder) = true :=
  c1_target_frame_size_fixed envStartOk 0 0 640 480 "out.mp4" systemInit
    [(1, 2, 300, 200)] (by decide)
